import Mathlib

/-!
Verification of the `python-ply-preview` VS Code extension
(`src/ViewPLYService.ts`): a shallow embedding in Lean 4 of the
expression extractor, the debug-context resolver, the type-handler
registry and dispatch engine, the remote save executor (including the
pure-NumPy PLY program's numeric semantics), the filename sanitizer,
and the session-directory cleanup, together with theorems settling the
specification's claims about them.
-/

namespace ViewPLY

/- ### Expression extraction (`getExpressionFromRange`) -/

/-- Index of the first occurrence of `c` in a character list
(JS `String.prototype.indexOf`, with `none` standing for `-1`). -/
def firstIdx (c : Char) : List Char → Option Nat
  | [] => none
  | a :: rest =>
    if a = c then some 0
    else (firstIdx c rest).map (· + 1)

/-- Number of occurrences of `c` in a character list
(JS `(s.match(/c/g) || []).length`). -/
def countChar (c : Char) (l : List Char) : Nat :=
  (l.filter (fun a => a = c)).length

/-- Embeds the comment test of `getExpressionFromRange`
(ViewPLYService.ts lines 444-447): `lineText.indexOf('#')` is not `-1`
and the word's starting column is strictly greater than it. -/
def commentHit (lineText : String) (wordStartIndex : Nat) : Bool :=
  match firstIdx '#' lineText.toList with
  | some commentIndex => wordStartIndex > commentIndex
  | none => false

/-- Embeds the quote-parity test of `getExpressionFromRange`
(ViewPLYService.ts lines 450-455): counts every `'` and every `"` in
`lineText.substring(0, wordStartIndex)` - with no escape handling - and
fires when either count is odd. -/
def quoteHit (lineText : String) (wordStartIndex : Nat) : Bool :=
  let linePre := lineText.toList.take wordStartIndex
  countChar '\'' linePre % 2 != 0 || countChar '\"' linePre % 2 != 0

/-- Embeds `getExpressionFromRange` (ViewPLYService.ts lines 436-458).
`word` is what `document.getText(document.getWordRangeAtPosition ...)`
returned (`none` for an undefined range, the empty string also being
falsy in JS); `lineText` is the word's line; `wordStartIndex` is
`range.start.character`. -/
def getExpressionFromRange (word : Option String) (lineText : String)
    (wordStartIndex : Nat) : Option String :=
  match word with
  | none => none
  | some expression =>
    if expression = "" then none
    else if commentHit lineText wordStartIndex then none
    else if quoteHit lineText wordStartIndex then none
    else some expression

/-- Modelled from the spec: index of the first *unescaped* occurrence of
`c` (one not directly preceded by a backslash), the reading under which
the spec's comment-exclusion sentence speaks of "the first unescaped
`#`". The source code itself uses a plain `indexOf` with no escape
handling. -/
def firstUnescapedIdx (c : Char) (l : List Char) : Option Nat :=
  go l none 0
where
  go : List Char → Option Char → Nat → Option Nat
    | [], _, _ => none
    | a :: rest, prev, i =>
      if a = c ∧ prev ≠ some '\\' then some i
      else go rest (some a) (i + 1)

/-- Modelled from the spec: the comment test as the claim states it -
the word's starting column lies after the first unescaped `#`. -/
def specCommentHit (lineText : String) (wordStartIndex : Nat) : Bool :=
  match firstUnescapedIdx '#' lineText.toList with
  | some commentIndex => wordStartIndex > commentIndex
  | none => false

/-- Modelled from the spec: number of *unescaped* occurrences of `c`
(ones not directly preceded by a backslash) in a character list. -/
def countUnescaped (c : Char) (l : List Char) : Nat :=
  go l none
where
  go : List Char → Option Char → Nat
    | [], _ => 0
    | a :: rest, prev =>
      (if a = c ∧ prev ≠ some '\\' then 1 else 0) + go rest (some a)

/-- Modelled from the spec: the quote test as the claim states it - the
running parity of unescaped single- or double-quote characters from
line start to the word's starting column is odd. -/
def specQuoteHit (lineText : String) (wordStartIndex : Nat) : Bool :=
  let linePre := lineText.toList.take wordStartIndex
  (countUnescaped '\'' linePre + countUnescaped '\"' linePre) % 2 = 1

end ViewPLY

namespace ViewPLY

/-- C3 counterexample: on the line `\# pt` with the word `pt` starting
at column 3, the first `#` (at column 1) is preceded by a backslash, so
under the claim's "first unescaped `#`" reading the comment test does
not fire (`specCommentHit = false`), the quote test does not fire
either, and the claim predicts the word is returned - yet the code's
extraction (a plain `indexOf('#')` with no escape handling) returns
nothing. -/
theorem c3_counterexample :
    getExpressionFromRange (some "pt") "\\# pt" 3 = none ∧
    specCommentHit "\\# pt" 3 = false ∧
    specQuoteHit "\\# pt" 3 = false := by decide

/-- C3 (amended): extraction returns nothing whenever the word's
starting column lies strictly after the first `#` character on its line
- escaped or not, since the code performs no escape handling; when the
line has no `#` before the word's start, the `#` test does not suppress
extraction and the outcome is decided by the quote-parity test alone. -/
theorem c3_comment_exclusion (w line : String) (i : Nat) (hw : w ≠ "") :
    ((∃ ci, firstIdx '#' line.toList = some ci ∧ ci < i) →
      getExpressionFromRange (some w) line i = none) ∧
    ((∀ ci, firstIdx '#' line.toList = some ci → i ≤ ci) →
      getExpressionFromRange (some w) line i =
        if quoteHit line i then none else some w) := by
  constructor
  · rintro ⟨ci, hci, hlt⟩
    simp only [getExpressionFromRange, commentHit, hci, hw, if_neg hw]
    simp [Nat.lt_iff_add_one_le, hlt, gt_iff_lt]
  · intro hall
    have hcomment : commentHit line i = false := by
      unfold commentHit
      cases hci : firstIdx '#' line.toList with
      | none => rfl
      | some ci =>
        have := hall ci hci
        simp [this, Nat.not_lt.mpr this]
    simp only [getExpressionFromRange, hcomment, if_neg hw]
    rfl

/-- C3 witness: a concrete line with no `#` at all, where the amended
theorem yields the extracted word. -/
theorem c3_comment_exclusion_witness :
    getExpressionFromRange (some "pt") "x = pt" 4 = some "pt" := by
  have hnone : firstIdx '#' "x = pt".toList = none := by decide
  have h := (c3_comment_exclusion "pt" "x = pt" 4 (by decide)).2
    (by intro ci hci; rw [hnone] at hci; cases hci)
  exact h.trans (by decide)

/-- C4 counterexample: on the line `'\'' pt` with the word `pt`
starting at column 5, the prefix holds two *unescaped* single quotes
(columns 0 and 3; the quote at column 2 is escaped), so the claim's
unescaped-parity is even and it predicts the word is returned - yet the
code counts all three single quotes (no escape handling), sees an odd
count, and returns nothing. -/
theorem c4_counterexample :
    getExpressionFromRange (some "pt") "'\\'' pt" 5 = none ∧
    specQuoteHit "'\\'' pt" 5 = false ∧
    specCommentHit "'\\'' pt" 5 = false ∧
    countUnescaped '\'' ("'\\'' pt".toList.take 5) = 2 ∧
    countChar '\'' ("'\\'' pt".toList.take 5) = 3 := by decide

/-- C4 (amended): when the comment test does not apply, extraction
returns the word exactly when the count of *all* single-quote
characters in the line prefix before the word is even and the count of
*all* double-quote characters is even (the two kinds checked
separately, with no escape handling); otherwise it returns nothing. -/
theorem c4_quote_parity (w line : String) (i : Nat) (hw : w ≠ "")
    (hc : commentHit line i = false) :
    getExpressionFromRange (some w) line i =
      if countChar '\'' (line.toList.take i) % 2 = 0 ∧
         countChar '\"' (line.toList.take i) % 2 = 0
      then some w else none := by
  simp only [getExpressionFromRange, hc, if_neg hw, Bool.false_eq_true,
    if_false, quoteHit]
  rcases Nat.mod_two_eq_zero_or_one (countChar '\'' (line.toList.take i))
    with h1 | h1 <;>
  rcases Nat.mod_two_eq_zero_or_one (countChar '\"' (line.toList.take i))
    with h2 | h2 <;>
  simp only [String.toList] at h1 h2 <;> simp [h1, h2]

/-- C4 witness: a concrete line whose prefix holds one closed string
literal (two single quotes, even parity), so the word is returned. -/
theorem c4_quote_parity_witness :
    getExpressionFromRange (some "y") "a 'b' y" 6 = some "y" :=
  (c4_quote_parity "y" "a 'b' y" 6 (by decide) (by decide)).trans (by decide)

/- ### Debug context resolution (`getTopStackFrameId`) -/

/-- An entry of the Debug Adapter Protocol `threads` response. -/
structure DapThread where
  id : Nat
deriving DecidableEq, Repr

/-- An entry of the Debug Adapter Protocol `stackTrace` response. -/
structure DapStackFrame where
  id : Nat
deriving DecidableEq, Repr

/-- Embeds `getTopStackFrameId` (ViewPLYService.ts lines 463-475).
`threadsReq` is the outcome of `session.customRequest('threads', {})`
(`Except.error` when the remote call raises); `stackTraceReq tid s l`
is the outcome of `session.customRequest('stackTrace', { threadId:
tid, startFrame: s, levels: l })`. Both requests sit inside one
`try`/`catch` whose handler logs and returns `undefined`, embedded here
as the `Except.error` branches. The JS `if (!threadId) return;` is a
falsiness test, so a first thread with id `0` also yields `none`. -/
def getTopStackFrameId (threadsReq : Except String (List DapThread))
    (stackTraceReq : Nat → Nat → Nat → Except String (List DapStackFrame)) :
    Option Nat :=
  match threadsReq with
  | .error _ => none
  | .ok threads =>
    match threads.head? with
    | none => none
    | some t =>
      if t.id = 0 then none
      else
        match stackTraceReq t.id 0 1 with
        | .error _ => none
        | .ok stackFrames => stackFrames.head?.map DapStackFrame.id

/-- Modelled from the spec: C6's characterization of when the resolver
returns nothing - "exactly when no threads exist or a remote query
raises". -/
def c6Claim : Prop :=
  ∀ (threadsReq : Except String (List DapThread))
    (stackTraceReq : Nat → Nat → Nat → Except String (List DapStackFrame)),
    getTopStackFrameId threadsReq stackTraceReq = none ↔
      ((∃ e, threadsReq = .error e) ∨ threadsReq = .ok [] ∨
       ∃ tid s l e, stackTraceReq tid s l = .error e)

/-- C6 counterexample: with one thread (id 1) and a stack-trace query
that resolves with an *empty* frame list, the resolver returns nothing
although threads exist and no remote query raises - refuting the
claim's "exactly when no threads exist or a remote query raises". -/
theorem c6_counterexample : ¬ c6Claim := by
  intro h
  have := (h (.ok [⟨1⟩]) (fun _ _ _ => .ok [])).mp rfl
  rcases this with ⟨e, he⟩ | he | ⟨_, _, _, _, he⟩ <;> cases he

/-- C6 (amended): the resolver queries the thread list, takes the first
thread, requests only the top stack frame (`startFrame 0`, `levels 1`)
of that thread and returns that frame's identifier; it returns nothing
exactly when the thread-list query raises, no threads exist, the first
thread's id is falsy (`0`), the stack-trace query raises, or the
stack-trace query returns no frames. A remote failure of either query
is caught and converted to `none`, never propagated. -/
theorem c6_shallow_context_resolution
    (threadsReq : Except String (List DapThread))
    (stackTraceReq : Nat → Nat → Nat → Except String (List DapStackFrame)) :
    (getTopStackFrameId threadsReq stackTraceReq = none ↔
      ((∃ e, threadsReq = .error e) ∨ threadsReq = .ok [] ∨
       (∃ t ts, threadsReq = .ok (t :: ts) ∧
         (t.id = 0 ∨ (∃ e, stackTraceReq t.id 0 1 = .error e) ∨
          stackTraceReq t.id 0 1 = .ok [])))) ∧
    (∀ t ts f fs, threadsReq = .ok (t :: ts) → t.id ≠ 0 →
      stackTraceReq t.id 0 1 = .ok (f :: fs) →
      getTopStackFrameId threadsReq stackTraceReq = some f.id) := by
  constructor
  · match threadsReq with
    | .error e => simp [getTopStackFrameId]
    | .ok [] => simp [getTopStackFrameId]
    | .ok (t :: ts) =>
      by_cases h0 : t.id = 0
      · simp [getTopStackFrameId, h0]
      · match hst : stackTraceReq t.id 0 1 with
        | .error e => simp [getTopStackFrameId, h0, hst]
        | .ok [] => simp [getTopStackFrameId, h0, hst]
        | .ok (f :: fs) => simp [getTopStackFrameId, h0, hst]
  · intro t ts f fs hthr h0 hst
    subst hthr
    simp [getTopStackFrameId, h0, hst]

/-- C6 witness: one thread with id 5 whose top frame has id 7; the
amended theorem returns frame 7. -/
theorem c6_shallow_context_resolution_witness :
    getTopStackFrameId (.ok [⟨5⟩]) (fun _ _ _ => .ok [⟨7⟩]) = some 7 :=
  (c6_shallow_context_resolution (.ok [⟨5⟩]) (fun _ _ _ => .ok [⟨7⟩])).2
    ⟨5⟩ [] ⟨7⟩ [] rfl (by decide) rfl

/- ### Paths, filename sanitization and the session storage layout -/

/-- A file-system path as its list of components (what `path.join`
assembles from its arguments). -/
abbrev FsPath := List String

/-- The service's base storage directory (constructor, ViewPLYService.ts
lines 367-369): `join(workspaceFolder, '.vscode', 'ply_preview')`. -/
def baseStorageDir (workspaceFolder : FsPath) : FsPath :=
  workspaceFolder ++ [".vscode", "ply_preview"]

/-- The per-session directory (`join(this.baseStorageDir, session.id)`,
ViewPLYService.ts line 489 and 553). -/
def sessionDir (base : FsPath) (sessionId : String) : FsPath :=
  base ++ [sessionId]

/-- Whether `dir` is an ancestor-or-self of `p` (componentwise): `p` is
`dir` itself or lies below it. -/
def pathLe (dir p : FsPath) : Bool :=
  decide (p.take dir.length = dir)

/-- The character class the sanitizer keeps: the JS regex
`[^a-zA-Z0-9_.-]` (ViewPLYService.ts line 492) replaces everything
*outside* this class. -/
def allowedChar (c : Char) : Bool :=
  ('a' ≤ c && c ≤ 'z') || ('A' ≤ c && c ≤ 'Z') || ('0' ≤ c && c ≤ '9') ||
    c = '_' || c = '.' || c = '-'

/-- Embeds `expression.replace(/[^a-zA-Z0-9_.-]/g, '_').substring(0, 50)`
(ViewPLYService.ts line 492). -/
def sanitizedName (expression : String) : String :=
  String.mk ((expression.toList.map
    (fun c => if allowedChar c then c else '_')).take 50)

/-- The artifact's file name: `` `${sanitizedName}_${Date.now()}.ply` ``
(ViewPLYService.ts line 493), with `now` the millisecond timestamp. -/
def plyFileName (expression : String) (now : Nat) : String :=
  sanitizedName expression ++ "_" ++ toString now ++ ".ply"

/-- The artifact's full path: `join(sessionDir, fileName)`
(ViewPLYService.ts line 493; the trailing `.replace(/\\/g, '/')` only
normalizes the separator, which the component representation already
abstracts). -/
def savePlyPath (base : FsPath) (sessionId expression : String)
    (now : Nat) : FsPath :=
  sessionDir base sessionId ++ [plyFileName expression now]

/-- Taking a list's own length from a concatenation returns the list:
the component form of "a joined path starts with its directory". -/
theorem take_length_append (d rest : FsPath) : (d ++ rest).take d.length = d := by
  induction d with
  | nil => simp
  | cons a as ih => simp [ih]

/-- A path below a directory satisfies `pathLe` for that directory. -/
theorem pathLe_append (d rest : FsPath) : pathLe d (d ++ rest) = true := by
  simp [pathLe, take_length_append]

/-- C5: every character of the sanitized name lies in `[A-Za-z0-9_.-]`,
the sanitized name has at most 50 characters, the file name is the
sanitized name followed by `_<timestampMillis>.ply`, and the resulting
path lies under `<base>/<sessionId>/`. -/
theorem c5_filename_sanitization (expression : String) (now : Nat)
    (base : FsPath) (sessionId : String) :
    ((sanitizedName expression).toList.all allowedChar = true) ∧
    (sanitizedName expression).length ≤ 50 ∧
    (savePlyPath base sessionId expression now =
      base ++ [sessionId,
        sanitizedName expression ++ "_" ++ toString now ++ ".ply"]) ∧
    pathLe (sessionDir base sessionId)
      (savePlyPath base sessionId expression now) = true := by
  refine ⟨?_, ?_, by simp [savePlyPath, sessionDir, plyFileName], ?_⟩
  · simp only [sanitizedName, String.toList, List.all_eq_true]
    intro c hc
    have hc' := List.mem_of_mem_take hc
    rcases List.mem_map.mp hc' with ⟨a, _, rfl⟩
    by_cases h : allowedChar a
    · simp [h]
    · simp [h]
      decide
  · simp only [sanitizedName, String.length]
    exact List.length_take_le 50 (expression.toList.map
      (fun c => if allowedChar c then c else '_'))
  · exact pathLe_append (sessionDir base sessionId) [plyFileName expression now]

/- ### Session cleanup (`cleanupSessionFiles`) -/

/-- Result of one run of the cleanup handler: the surviving file-system
paths and the handler's observable behavior. -/
structure CleanupOutcome where
  fs : List FsPath
  errorLogged : Bool
  userNotified : Bool
  raised : Bool
deriving Repr

/-- What `fs.rm(dir, { recursive: true, force: true })` removes: the
directory itself and everything below it. -/
def removeRecursive (fs : List FsPath) (dir : FsPath) : List FsPath :=
  fs.filter (fun p => !pathLe dir p)

/-- Embeds `cleanupSessionFiles` (ViewPLYService.ts lines 552-560): on
session termination remove `join(this.baseStorageDir, session.id)`
recursively; a removal failure (`rmFails`) is caught by the
`try`/`catch`, logged via `logError`, and nothing is shown to the user,
retried or re-raised. -/
def cleanupSessionFiles (base : FsPath) (fs : List FsPath)
    (sessionId : String) (rmFails : Bool) : CleanupOutcome :=
  if rmFails then
    { fs := fs, errorLogged := true, userNotified := false, raised := false }
  else
    { fs := removeRecursive fs (sessionDir base sessionId),
      errorLogged := false, userNotified := false, raised := false }

/-- C9: cleanup of session `S` never raises and never notifies the
user; on success it keeps exactly the paths that are not `<base>/S` and
not below it (so it removes exactly that directory and its contents),
and every path of a different session `S'` (session ids hold no
separator, so distinct ids give disjoint directories) survives; on a
removal failure the file system is untouched and the error is only
logged. -/
theorem c9_session_cleanup (base : FsPath) (fs : List FsPath)
    (sessionId : String) (rmFails : Bool) :
    (cleanupSessionFiles base fs sessionId rmFails).raised = false ∧
    (cleanupSessionFiles base fs sessionId rmFails).userNotified = false ∧
    (rmFails = true →
      (cleanupSessionFiles base fs sessionId rmFails).fs = fs ∧
      (cleanupSessionFiles base fs sessionId rmFails).errorLogged = true) ∧
    (rmFails = false →
      (∀ p, p ∈ (cleanupSessionFiles base fs sessionId rmFails).fs ↔
        p ∈ fs ∧ pathLe (sessionDir base sessionId) p = false) ∧
      (∀ sessionId2 p, sessionId2 ≠ sessionId → p ∈ fs →
        pathLe (sessionDir base sessionId2) p = true →
        p ∈ (cleanupSessionFiles base fs sessionId rmFails).fs)) := by
  refine ⟨?_, ?_, ?_, ?_⟩
  · cases rmFails <;> simp [cleanupSessionFiles]
  · cases rmFails <;> simp [cleanupSessionFiles]
  · rintro rfl; simp [cleanupSessionFiles]
  · rintro rfl
    constructor
    · intro p
      simp [cleanupSessionFiles, removeRecursive, List.mem_filter]
    · intro sessionId2 p hne hp hle
      have hnot : pathLe (sessionDir base sessionId) p = false := by
        by_contra hcon
        have hle1 : p.take (sessionDir base sessionId).length
            = sessionDir base sessionId := by
          have := Bool.not_eq_false _ |>.mp hcon
          simpa [pathLe] using this
        have hle2 : p.take (sessionDir base sessionId2).length
            = sessionDir base sessionId2 := by
          simpa [pathLe] using hle
        have hlen : (sessionDir base sessionId).length
            = (sessionDir base sessionId2).length := by
          simp [sessionDir]
        rw [hlen, hle2] at hle1
        have := List.append_inj_right hle1 rfl
        simp at this
        exact hne this
      simp [cleanupSessionFiles, removeRecursive, List.mem_filter, hp, hnot]

/-- C9 witness: with two session directories present, cleaning up
session `a` removes exactly `a`'s directory and file and keeps session
`b`'s file, with no user notification and nothing raised. -/
theorem c9_session_cleanup_witness :
    (cleanupSessionFiles ["base"] [["base", "a"], ["base", "a", "f.ply"],
        ["base", "b", "g.ply"]] "a" false).raised = false ∧
    (["base", "b", "g.ply"] ∈ (cleanupSessionFiles ["base"]
        [["base", "a"], ["base", "a", "f.ply"], ["base", "b", "g.ply"]]
        "a" false).fs) ∧
    (["base", "a", "f.ply"] ∉ (cleanupSessionFiles ["base"]
        [["base", "a"], ["base", "a", "f.ply"], ["base", "b", "g.ply"]]
        "a" false).fs) := by
  have h := c9_session_cleanup ["base"]
    [["base", "a"], ["base", "a", "f.ply"], ["base", "b", "g.ply"]] "a" false
  refine ⟨h.1, ?_, ?_⟩
  · exact (h.2.2.2 rfl).2 "b" ["base", "b", "g.ply"] (by decide)
      (by simp) (by decide)
  · intro hmem
    have := ((h.2.2.2 rfl).1 ["base", "a", "f.ply"]).mp hmem
    exact absurd this.2 (by decide)

/- ### The type-handler registry (ViewPLYService.ts lines 266-355) -/

/-- A registry entry: a user-friendly name, a generator of a remote
boolean type-check expression, and a generator of the remote save
program (ViewPLYService.ts lines 266-277). -/
structure PointCloudHandler where
  name : String
  typeCheck : String → String
  saveExpression : String → String → String

/-- Embeds `getPureNumpySaveExpression` (ViewPLYService.ts lines
280-320): the generated Python program that writes an ASCII PLY file
for a NumPy `(n,3)` or `(n,6)` array without importing Open3D. -/
def getPureNumpySaveExpression (numpyVarName savePath : String) : String :=
  "
\x69mport numpy as __vp_np
try:
    __vp_data = " ++ numpyVarName ++ "
    __vp_count = __vp_data.shape[0]
    __vp_has_color = __vp_data.shape[1] == 6

    __vp_color_props = \"property uchar red\\nproperty uchar green\\nproperty uchar blue\" if __vp_has_color else \"\"

    # Construct PLY Header
    __vp_header = f\"\"\"ply
format ascii 1.0
element vertex {__vp_count}
property float x
property float y
property float z
{__vp_color_props}
end_header
\"\"\"
    # Write File
    with open('" ++ savePath ++ "', 'w') as __vp_f:
        __vp_f.write(__vp_header)
       \x20
        if __vp_has_color:
            __vp_xyz = __vp_data[:, :3]
            __vp_rgb = __vp_data[:, 3:]
            # Normalize colors if they are 0-1 floats
            if __vp_rgb.max() <= 1.0:
                __vp_rgb = (__vp_rgb * 255).astype(__vp_np.uint8)
            else:
                __vp_rgb = __vp_rgb.astype(__vp_np.uint8)
           \x20
            __vp_combined = __vp_np.hstack((__vp_xyz, __vp_rgb))
            __vp_np.savetxt(__vp_f, __vp_combined, fmt='%.6f %.6f %.6f %d %d %d')
        else:
            __vp_np.savetxt(__vp_f, __vp_data, fmt='%.6f %.6f %.6f')

    del __vp_np, __vp_data, __vp_count, __vp_header, __vp_color_props
except Exception as e:
    raise e
"

/-- First registry entry (ViewPLYService.ts lines 323-333): native
Open3D point cloud, saved with the library's own writer. -/
def open3dPointCloudHandler : PointCloudHandler where
  name := "Open3D PointCloud"
  typeCheck := fun varName =>
    "hasattr(" ++ varName ++ ", '__class__') and (" ++ varName ++
    ".__class__.__module__.startswith('open3d') or 'open3d' in " ++ varName ++
    ".__class__.__module__) and 'PointCloud' in " ++ varName ++
    ".__class__.__name__"
  saveExpression := fun varName savePath =>
    "
\x69mport open3d as __viewply_o3d
__viewply_o3d.io.write_point_cloud('" ++ savePath ++ "', " ++ varName ++ ")
del __viewply_o3d"

/-- Second registry entry (ViewPLYService.ts lines 334-341): NumPy
`(n,3)` or `(n,6)` array, saved via the pure-NumPy direct-write path. -/
def numpyArrayHandler : PointCloudHandler where
  name := "NumPy Array"
  typeCheck := fun varName =>
    "hasattr(" ++ varName ++ ", '__class__') and (" ++ varName ++
    ".__class__.__module__ == 'numpy' or " ++ varName ++
    ".__class__.__module__.startswith('numpy.')) and " ++ varName ++
    ".__class__.__name__ == 'ndarray' and " ++ varName ++
    ".ndim == 2 and " ++ varName ++ ".shape[1] in [3, 6]"
  saveExpression := fun varName savePath =>
    getPureNumpySaveExpression varName savePath

/-- Third registry entry (ViewPLYService.ts lines 342-354): PyTorch
tensor, detached and moved to the CPU, then saved via the pure-NumPy
path. -/
def pytorchTensorHandler : PointCloudHandler where
  name := "PyTorch Tensor"
  typeCheck := fun varName =>
    "hasattr(" ++ varName ++ ", '__class__') and 'torch' in " ++ varName ++
    ".__class__.__module__ and 'Tensor' in " ++ varName ++
    ".__class__.__name__ and " ++ varName ++ ".ndim == 2 and " ++ varName ++
    ".shape[1] in [3, 6]"
  saveExpression := fun varName savePath =>
    "
\x23 Detach and move to CPU before converting to numpy
__vp_torch_np = (" ++ varName ++ ").detach().cpu().numpy()
" ++ getPureNumpySaveExpression "__vp_torch_np" savePath ++ "
del __vp_torch_np
"

/-- The ordered registry `POINT_CLOUD_HANDLERS` (ViewPLYService.ts
lines 322-355). -/
def POINT_CLOUD_HANDLERS : List PointCloudHandler :=
  [open3dPointCloudHandler, numpyArrayHandler, pytorchTensorHandler]

/- ### The dispatch engine (`viewPLY`, ViewPLYService.ts lines 400-431) -/

/-- Outcome of one remote `evaluate` round trip in `hover` context:
`ok result` when the request resolves with `{ result }`, `err` when it
rejects (the per-handler `catch` in the loop). -/
inductive EvalOutcome where
  | ok (result : String)
  | err (message : String)
deriving DecidableEq, Repr

/-- The predicate expression the loop evaluates for a handler:
`handler.typeCheck(`(${expression})`)` (ViewPLYService.ts line 409). -/
def handlerCheck (handler : PointCloudHandler) (expression : String) : String :=
  handler.typeCheck ("(" ++ expression ++ ")")

/-- Observable record of one run of the dispatch loop: the predicate
expressions actually sent for evaluation (in order), the matched
handler's name, the handlers whose save program was executed, the
returned path, whether the unsupported-type warning was shown, and
whether an exception escaped. -/
structure DispatchTrace where
  checksEvaluated : List String
  matchedHandler : Option String
  savesRun : List String
  returned : Option String
  warned : Bool
  raised : Bool
deriving DecidableEq, Repr

/-- Embeds the `for (const handler of POINT_CLOUD_HANDLERS)` loop of
`viewPLY` (ViewPLYService.ts lines 408-424) plus the fall-through
warning: for each handler evaluate its check in `hover` context; a
rejected evaluation is caught, logged and the loop continues; a result
text of exactly `True` selects the handler, whose save program alone is
then run (`runSave`, standing for `saveVariableAsPly`, which never
throws); exhaustion shows the unsupported-type warning and returns
`undefined`. The surrounding `try`/`catch` in `viewPLY` means no
exception escapes, embedded as the total function's `raised := false`. -/
def dispatchLoop (evalHover : String → EvalOutcome)
    (runSave : PointCloudHandler → Option String) (expression : String) :
    List PointCloudHandler → DispatchTrace
  | [] =>
    { checksEvaluated := [], matchedHandler := none, savesRun := [],
      returned := none, warned := true, raised := false }
  | handler :: rest =>
    let check := handlerCheck handler expression
    match evalHover check with
    | .ok r =>
      if r = "True" then
        { checksEvaluated := [check], matchedHandler := some handler.name,
          savesRun := [handler.name], returned := runSave handler,
          warned := false, raised := false }
      else
        let t := dispatchLoop evalHover runSave expression rest
        { t with checksEvaluated := check :: t.checksEvaluated }
    | .err _ =>
      let t := dispatchLoop evalHover runSave expression rest
      { t with checksEvaluated := check :: t.checksEvaluated }

/-- The dispatch engine over the real registry. -/
def viewPLYDispatch (evalHover : String → EvalOutcome)
    (runSave : PointCloudHandler → Option String)
    (expression : String) : DispatchTrace :=
  dispatchLoop evalHover runSave expression POINT_CLOUD_HANDLERS

/-- Whether a handler's remotely evaluated predicate resolved with the
textual result `True`. -/
def matchesTrue (evalHover : String → EvalOutcome) (expression : String)
    (handler : PointCloudHandler) : Bool :=
  match evalHover (handlerCheck handler expression) with
  | .ok r => r = "True"
  | .err _ => false

/-- Full characterization of the dispatch loop over any handler list:
the checks sent are exactly those of the non-matching prefix plus the
first matching handler; the first matching handler (in order) is
selected; only its save program runs; its save result is returned; the
warning fires exactly on exhaustion; nothing is raised. -/
theorem dispatchLoop_spec (evalHover : String → EvalOutcome)
    (runSave : PointCloudHandler → Option String) (expression : String)
    (hs : List PointCloudHandler) :
    (dispatchLoop evalHover runSave expression hs).checksEvaluated =
      ((hs.takeWhile (fun h => !matchesTrue evalHover expression h)) ++
       (hs.dropWhile (fun h => !matchesTrue evalHover expression h)).take 1).map
        (fun h => handlerCheck h expression) ∧
    (dispatchLoop evalHover runSave expression hs).matchedHandler =
      (hs.find? (matchesTrue evalHover expression)).map PointCloudHandler.name ∧
    (dispatchLoop evalHover runSave expression hs).savesRun =
      ((hs.find? (matchesTrue evalHover expression)).map
        PointCloudHandler.name).toList ∧
    (dispatchLoop evalHover runSave expression hs).returned =
      (hs.find? (matchesTrue evalHover expression)).bind runSave ∧
    (dispatchLoop evalHover runSave expression hs).warned =
      (hs.find? (matchesTrue evalHover expression)).isNone ∧
    (dispatchLoop evalHover runSave expression hs).raised = false := by
  induction hs with
  | nil => simp [dispatchLoop]
  | cons handler rest ih =>
    rcases ih with ⟨ih1, ih2, ih3, ih4, ih5, ih6⟩
    by_cases hm : matchesTrue evalHover expression handler
    · have hok : evalHover (handlerCheck handler expression) = .ok "True" := by
        unfold matchesTrue at hm
        cases hev : evalHover (handlerCheck handler expression) with
        | ok r =>
          rw [hev] at hm
          simp only [decide_eq_true_eq] at hm
          rw [hm]
        | err m => rw [hev] at hm; cases hm
      refine ⟨?_, ?_, ?_, ?_, ?_, ?_⟩ <;>
        simp [dispatchLoop, hok, List.find?, hm, List.takeWhile, List.dropWhile]
    · have hm' : matchesTrue evalHover expression handler = false :=
        Bool.not_eq_true _ |>.mp hm
      unfold matchesTrue at hm'
      cases hev : evalHover (handlerCheck handler expression) with
      | ok r =>
        rw [hev] at hm'
        simp only [decide_eq_false_iff_not] at hm'
        refine ⟨?_, ?_, ?_, ?_, ?_, ?_⟩ <;>
          simp [dispatchLoop, hev, hm', ih1, ih2, ih3, ih4, ih5, ih6,
            List.find?, List.takeWhile, List.dropWhile,
            Bool.not_eq_true _ |>.mp hm]
      | err m =>
        refine ⟨?_, ?_, ?_, ?_, ?_, ?_⟩ <;>
          simp [dispatchLoop, hev, ih1, ih2, ih3, ih4, ih5, ih6,
            List.find?, List.takeWhile, List.dropWhile,
            Bool.not_eq_true _ |>.mp hm]

/-- C1: dispatch evaluates the three predicates strictly in
declaration order - the checks actually sent are exactly those of the
handlers before the first match plus the first matching one, so
predicates of later handlers are never evaluated; the first handler
whose predicate resolves with the textual result `True` is selected
and only its save program runs; if every predicate is exhausted
without a `True` result, nothing is returned, the unsupported-type
warning is shown, and no exception escapes. -/
theorem c1_dispatch_first_match (evalHover : String → EvalOutcome)
    (runSave : PointCloudHandler → Option String) (expression : String) :
    (viewPLYDispatch evalHover runSave expression).checksEvaluated =
      ((POINT_CLOUD_HANDLERS.takeWhile
          (fun h => !matchesTrue evalHover expression h)) ++
       (POINT_CLOUD_HANDLERS.dropWhile
          (fun h => !matchesTrue evalHover expression h)).take 1).map
        (fun h => handlerCheck h expression) ∧
    (viewPLYDispatch evalHover runSave expression).matchedHandler =
      (POINT_CLOUD_HANDLERS.find? (matchesTrue evalHover expression)).map
        PointCloudHandler.name ∧
    (viewPLYDispatch evalHover runSave expression).savesRun =
      ((POINT_CLOUD_HANDLERS.find? (matchesTrue evalHover expression)).map
        PointCloudHandler.name).toList ∧
    (viewPLYDispatch evalHover runSave expression).returned =
      (POINT_CLOUD_HANDLERS.find? (matchesTrue evalHover expression)).bind
        runSave ∧
    (POINT_CLOUD_HANDLERS.find? (matchesTrue evalHover expression) = none →
      (viewPLYDispatch evalHover runSave expression).returned = none ∧
      (viewPLYDispatch evalHover runSave expression).warned = true) ∧
    (viewPLYDispatch evalHover runSave expression).raised = false := by
  have h := dispatchLoop_spec evalHover runSave expression POINT_CLOUD_HANDLERS
  rcases h with ⟨h1, h2, h3, h4, h5, h6⟩
  refine ⟨h1, h2, h3, h4, ?_, h6⟩
  intro hnone
  rw [viewPLYDispatch] at *
  rw [hnone] at h4 h5
  exact ⟨h4, by simpa using h5⟩

/-- C1 witness: an evaluator whose every predicate resolves `False`
exhausts all three handlers, evaluates exactly the three checks in
order, runs no save program, returns nothing, warns, raises nothing. -/
theorem c1_dispatch_first_match_witness :
    (viewPLYDispatch (fun _ => .ok "False") (fun _ => some "/p") "x").returned
      = none ∧
    (viewPLYDispatch (fun _ => .ok "False") (fun _ => some "/p") "x").warned
      = true ∧
    (viewPLYDispatch (fun _ => .ok "False") (fun _ => some "/p") "x").savesRun
      = [] := by
  have h := c1_dispatch_first_match (fun _ => .ok "False")
    (fun _ => some "/p") "x"
  have hnone : POINT_CLOUD_HANDLERS.find?
      (matchesTrue (fun _ => .ok "False") "x") = none := by
    simp [POINT_CLOUD_HANDLERS, List.find?, matchesTrue]
  refine ⟨(h.2.2.2.2.1 hnone).1, (h.2.2.2.2.1 hnone).2, ?_⟩
  rw [h.2.2.1, hnone]
  rfl

/-- C2: if the first handler's predicate evaluation rejects (for
example because Open3D is not importable in the debuggee) and the
second handler's predicate resolves `True`, the failure is swallowed
and the second handler (NumPy Array) is selected: its check is
evaluated right after the failing one, only its save program runs, its
save result is returned, and nothing escapes. -/
theorem c2_predicate_failure_tolerance (evalHover : String → EvalOutcome)
    (runSave : PointCloudHandler → Option String) (expression : String)
    (e1 : String)
    (h1 : evalHover (handlerCheck open3dPointCloudHandler expression) =
      .err e1)
    (h2 : evalHover (handlerCheck numpyArrayHandler expression) =
      .ok "True") :
    (viewPLYDispatch evalHover runSave expression).matchedHandler =
      some "NumPy Array" ∧
    (viewPLYDispatch evalHover runSave expression).savesRun =
      ["NumPy Array"] ∧
    (viewPLYDispatch evalHover runSave expression).returned =
      runSave numpyArrayHandler ∧
    (viewPLYDispatch evalHover runSave expression).checksEvaluated =
      [handlerCheck open3dPointCloudHandler expression,
       handlerCheck numpyArrayHandler expression] ∧
    (viewPLYDispatch evalHover runSave expression).raised = false := by
  have hkey := dispatchLoop_spec evalHover runSave expression
    POINT_CLOUD_HANDLERS
  rcases hkey with ⟨hc, hmh, hsr, hret, _, hr⟩
  have hm1 : matchesTrue evalHover expression open3dPointCloudHandler
      = false := by
    simp [matchesTrue, h1]
  have hm2 : matchesTrue evalHover expression numpyArrayHandler = true := by
    simp [matchesTrue, h2]
  have hfind : POINT_CLOUD_HANDLERS.find? (matchesTrue evalHover expression)
      = some numpyArrayHandler := by
    simp [POINT_CLOUD_HANDLERS, hm1, hm2]
  have htake : POINT_CLOUD_HANDLERS.takeWhile
      (fun h => !matchesTrue evalHover expression h)
      = [open3dPointCloudHandler] := by
    simp [POINT_CLOUD_HANDLERS, hm1, hm2]
  have hdrop : (POINT_CLOUD_HANDLERS.dropWhile
      (fun h => !matchesTrue evalHover expression h)).take 1
      = [numpyArrayHandler] := by
    simp [POINT_CLOUD_HANDLERS, hm1, hm2]
  simp only [viewPLYDispatch]
  refine ⟨?_, ?_, ?_, ?_, hr⟩
  · rw [hmh, hfind]; rfl
  · rw [hsr, hfind]; rfl
  · rw [hret, hfind]; rfl
  · rw [hc, htake, hdrop]; rfl

set_option maxRecDepth 8192 in
/-- C2 witness: a concrete evaluator that rejects the Open3D check
(simulating a missing module) and resolves `True` on the NumPy check;
the NumPy handler wins and its save result is returned. -/
theorem c2_predicate_failure_tolerance_witness :
    (viewPLYDispatch
      (fun s => if s = handlerCheck numpyArrayHandler "pts"
                then .ok "True" else .err "No module named open3d")
      (fun _ => some "/tmp/pts.ply") "pts").matchedHandler
      = some "NumPy Array" ∧
    (viewPLYDispatch
      (fun s => if s = handlerCheck numpyArrayHandler "pts"
                then .ok "True" else .err "No module named open3d")
      (fun _ => some "/tmp/pts.ply") "pts").returned
      = some "/tmp/pts.ply" := by
  have h := c2_predicate_failure_tolerance
    (fun s => if s = handlerCheck numpyArrayHandler "pts"
              then .ok "True" else .err "No module named open3d")
    (fun _ => some "/tmp/pts.ply") "pts" "No module named open3d"
    (by decide) (by decide)
  exact ⟨h.1, h.2.2.1⟩

/- ### The remote save executor (`saveVariableAsPly`, lines 487-547) -/

/-- JS `rawCommand.replace(/^/gm, '    ')`: four spaces inserted at the
start of every line. -/
def indentLines (s : String) : String :=
  String.intercalate "\n" ((s.splitOn "\n").map (fun line => "    " ++ line))

/-- Embeds the `wrappedCommand` template of `saveVariableAsPly`
(ViewPLYService.ts lines 498-514): the handler's save program indented
into a Python `try` block that prints a success sentinel, converts an
`ImportError`/`ModuleNotFoundError` naming open3d into the dedicated
`ViewPLY_Missing_Open3D` sentinel, and re-raises everything else. -/
def wrappedSaveCommand (handler : PointCloudHandler)
    (expression savePathS : String) : String :=
  "
try:
" ++ indentLines (handler.saveExpression ("(" ++ expression ++ ")") savePathS)
  ++ "
    print(\"ViewPLY Success\")
except ImportError as e:
    if 'open3d' in str(e):
        raise ImportError(\"ViewPLY_Missing_Open3D\")
    else:
        raise e
except ModuleNotFoundError as e:
    if 'open3d' in str(e):
        raise ImportError(\"ViewPLY_Missing_Open3D\")
    else:
        raise e
except Exception as e:
    raise e
"

/-- Whether the character list `n` is an initial run of `h`. -/
def leadsChars : List Char → List Char → Bool
  | [], _ => true
  | _ :: _, [] => false
  | a :: as, b :: bs => a = b && leadsChars as bs

/-- JS `hay.includes(needle)`: substring containment. -/
def containsSub (needle hay : String) : Bool :=
  go needle.toList hay.toList
where
  go (n : List Char) : List Char → Bool
    | [] => n.isEmpty
    | c :: rest => leadsChars n (c :: rest) || go n rest

/-- The artifact path as the flat string the executor interpolates into
the remote program and returns (`join(...).replace(/\\/g, '/')`,
ViewPLYService.ts line 493). -/
def savePlyPathString (base : FsPath) (sessionId expression : String)
    (now : Nat) : String :=
  String.intercalate "/" (savePlyPath base sessionId expression now)

/-- Observable outcome of `saveVariableAsPly`: the resolved value of
the promise (a path or nothing), which user-facing message was shown,
and whether an exception escaped. -/
structure SaveOutcome where
  returnedPath : Option String
  promptedInstall : Bool
  showedGenericError : Bool
  rejected : Bool
deriving DecidableEq, Repr

/-- Embeds `saveVariableAsPly` (ViewPLYService.ts lines 487-547).
`mkdirResult` is the outcome of `fs.mkdir(sessionDir, { recursive:
true })`; `evalRepl` is the outcome of the `repl`-context `evaluate`
round trip (rejected when the remote program raises). The whole body
sits in a `try`/`catch`: on success the computed path is returned
without inspecting the evaluation's result text; on any failure the
catch block returns `undefined` after showing either the actionable
missing-open3d prompt (when `String(error)` holds the dedicated
sentinel or Python's own missing-module text) or the generic
check-the-log message. No exception escapes, embedded as the total
function's `rejected := false`. -/
def saveVariableAsPly (mkdirResult : Except String Unit)
    (evalRepl : String → Except String String) (base : FsPath)
    (sessionId expression : String) (now : Nat)
    (handler : PointCloudHandler) : SaveOutcome :=
  let attempt : Except String String :=
    match mkdirResult with
    | .error e => .error e
    | .ok _ =>
      match evalRepl (wrappedSaveCommand handler expression
          (savePlyPathString base sessionId expression now)) with
      | .error e => .error e
      | .ok _ => .ok (savePlyPathString base sessionId expression now)
  match attempt with
  | .ok savedPath =>
    { returnedPath := some savedPath, promptedInstall := false,
      showedGenericError := false, rejected := false }
  | .error e =>
    if containsSub "ViewPLY_Missing_Open3D" e ||
       containsSub "No module named 'open3d'" e then
      { returnedPath := none, promptedInstall := true,
        showedGenericError := false, rejected := false }
    else
      { returnedPath := none, promptedInstall := false,
        showedGenericError := true, rejected := false }

/-- C8: the executor never rejects; when the directory creation and the
remote evaluation both resolve it returns the computed destination
path with no error surfaced; when either step fails it returns nothing
and shows exactly one of two messages - the actionable install prompt
precisely when the failure text holds the dedicated
`ViewPLY_Missing_Open3D` sentinel or Python's missing-open3d text, and
the generic log-pointing message otherwise. -/
theorem c8_save_error_contract (mkdirResult : Except String Unit)
    (evalRepl : String → Except String String) (base : FsPath)
    (sessionId expression : String) (now : Nat)
    (handler : PointCloudHandler) :
    (saveVariableAsPly mkdirResult evalRepl base sessionId expression now
      handler).rejected = false ∧
    (∀ u r, mkdirResult = .ok u →
      evalRepl (wrappedSaveCommand handler expression
        (savePlyPathString base sessionId expression now)) = .ok r →
      saveVariableAsPly mkdirResult evalRepl base sessionId expression now
          handler =
        { returnedPath := some (savePlyPathString base sessionId expression
            now), promptedInstall := false, showedGenericError := false,
          rejected := false }) ∧
    (∀ e, (mkdirResult = .error e ∨
        (∃ u, mkdirResult = .ok u ∧
          evalRepl (wrappedSaveCommand handler expression
            (savePlyPathString base sessionId expression now))
            = .error e)) →
      (saveVariableAsPly mkdirResult evalRepl base sessionId expression now
        handler).returnedPath = none ∧
      (saveVariableAsPly mkdirResult evalRepl base sessionId expression now
        handler).promptedInstall =
        (containsSub "ViewPLY_Missing_Open3D" e ||
         containsSub "No module named 'open3d'" e) ∧
      (saveVariableAsPly mkdirResult evalRepl base sessionId expression now
        handler).showedGenericError =
        !(containsSub "ViewPLY_Missing_Open3D" e ||
          containsSub "No module named 'open3d'" e)) := by
  refine ⟨?_, ?_, ?_⟩
  · match mkdirResult with
    | .error e =>
      simp only [saveVariableAsPly]
      by_cases hs : containsSub "ViewPLY_Missing_Open3D" e ||
          containsSub "No module named 'open3d'" e <;> simp [hs]
    | .ok u =>
      simp only [saveVariableAsPly]
      match hev : evalRepl (wrappedSaveCommand handler expression
          (savePlyPathString base sessionId expression now)) with
      | .ok r => simp [hev]
      | .error e =>
        simp only [hev]
        by_cases hs : containsSub "ViewPLY_Missing_Open3D" e ||
            containsSub "No module named 'open3d'" e <;> simp [hs]
  · rintro u r rfl hev
    simp [saveVariableAsPly, hev]
  · rintro e (rfl | ⟨u, rfl, hev⟩)
    · simp only [saveVariableAsPly]
      by_cases hs : containsSub "ViewPLY_Missing_Open3D" e ||
          containsSub "No module named 'open3d'" e <;> simp [hs]
    · simp only [saveVariableAsPly, hev]
      by_cases hs : containsSub "ViewPLY_Missing_Open3D" e ||
          containsSub "No module named 'open3d'" e <;> simp [hs]

/-- C8 witness: a rejected evaluation carrying Python's
missing-open3d message yields no path and the actionable install
prompt; nothing escapes. -/
theorem c8_save_error_contract_witness :
    (saveVariableAsPly (.ok ())
      (fun _ => .error "ModuleNotFoundError: No module named 'open3d'")
      ["base"] "sid" "pts" 7 numpyArrayHandler).returnedPath = none ∧
    (saveVariableAsPly (.ok ())
      (fun _ => .error "ModuleNotFoundError: No module named 'open3d'")
      ["base"] "sid" "pts" 7 numpyArrayHandler).promptedInstall = true ∧
    (saveVariableAsPly (.ok ())
      (fun _ => .error "ModuleNotFoundError: No module named 'open3d'")
      ["base"] "sid" "pts" 7 numpyArrayHandler).rejected = false := by
  have h := c8_save_error_contract (.ok ())
    (fun _ => .error "ModuleNotFoundError: No module named 'open3d'")
    ["base"] "sid" "pts" 7 numpyArrayHandler
  have h3 := h.2.2 "ModuleNotFoundError: No module named 'open3d'"
    (Or.inr ⟨(), rfl, rfl⟩)
  refine ⟨h3.1, ?_, h.1⟩
  rw [h3.2.1]
  decide

/-- C10 (implicit): the executor reports success purely because the
remote evaluate call resolved - it returns the computed destination
path without inspecting the result text for the generated program's
`ViewPLY Success` sentinel and without checking the file system, so a
resolved evaluation whose result text is anything other than the
sentinel still yields the path. -/
theorem c10_success_not_verified (base : FsPath)
    (sessionId expression : String) (now : Nat)
    (handler : PointCloudHandler) (r : String)
    (_hr : r ≠ "ViewPLY Success") :
    (saveVariableAsPly (.ok ()) (fun _ => .ok r) base sessionId expression
      now handler).returnedPath =
      some (savePlyPathString base sessionId expression now) := by
  simp [saveVariableAsPly]

/-- C10 witness: an evaluation resolving with an arbitrary non-sentinel
result text still yields the computed path. -/
theorem c10_success_not_verified_witness :
    (saveVariableAsPly (.ok ()) (fun _ => .ok "None") ["base"] "sid"
      "pts" 7 numpyArrayHandler).returnedPath =
      some (savePlyPathString ["base"] "sid" "pts" 7) :=
  c10_success_not_verified ["base"] "sid" "pts" 7 numpyArrayHandler
    "None" (by decide)

/- ### Numeric semantics of the pure-NumPy color path (lines 303-313) -/

/-- Truncation of a rational toward zero: what NumPy's
`astype(uint8)` does to the magnitude before the 8-bit wrap. -/
def ratTrunc (q : ℚ) : ℤ := if q < 0 then -⌊-q⌋ else ⌊q⌋

/-- NumPy `astype(__vp_np.uint8)` on a float value: truncate toward
zero, then wrap into 8 bits (the Int `%` here is `Int.emod`, which
yields the 0-255 representative). -/
def astypeUint8 (q : ℚ) : ℤ := ratTrunc q % 256

/-- A row of an `(n,6)` array handed to the generated program: the
first three columns and the last three columns
(`__vp_data[:, :3]` / `__vp_data[:, 3:]`). -/
structure NumpyRow6 where
  x : ℚ
  y : ℚ
  z : ℚ
  r : ℚ
  g : ℚ
  b : ℚ
deriving DecidableEq, Repr

/-- A vertex line the generated program writes after `hstack`: three
floating positions and three integer color channels
(`fmt='%.6f %.6f %.6f %d %d %d'`). -/
structure PlyVertex where
  x : ℚ
  y : ℚ
  z : ℚ
  red : ℤ
  green : ℤ
  blue : ℤ
deriving DecidableEq, Repr

/-- The branch condition `__vp_rgb.max() <= 1.0` of the generated
program: the maximum over a nonempty color block is at most 1 exactly
when every entry is. -/
def rgbAllLeOne (rows : List NumpyRow6) : Bool :=
  rows.all (fun w => decide (w.r ≤ 1) && decide (w.g ≤ 1) && decide (w.b ≤ 1))

/-- Value-level semantics of the color path of
`getPureNumpySaveExpression` (ViewPLYService.ts lines 303-313) on an
`(n,6)` array: positions are the first three columns unchanged; if the
color maximum is at most 1 every channel becomes
`(c * 255).astype(uint8)`, otherwise `c.astype(uint8)`; `hstack` pairs
each position row with its converted color row. -/
def pureNumpyVertices (rows : List NumpyRow6) : List PlyVertex :=
  if rgbAllLeOne rows then
    rows.map (fun w =>
      ⟨w.x, w.y, w.z, astypeUint8 (w.r * 255), astypeUint8 (w.g * 255),
        astypeUint8 (w.b * 255)⟩)
  else
    rows.map (fun w =>
      ⟨w.x, w.y, w.z, astypeUint8 w.r, astypeUint8 w.g, astypeUint8 w.b⟩)

/-- C7 counterexample: a single row with color `(1/2, 0, 1)` - all
channels in the 0-1 float range - is written with red channel
`trunc(0.5 * 255) = 127`, whereas the claim's `round(c*255)` would be
`128`: `astype(uint8)` truncates, it does not round. -/
theorem c7_counterexample :
    pureNumpyVertices [⟨0, 0, 0, 1/2, 0, 1⟩] = [⟨0, 0, 0, 127, 0, 255⟩] ∧
    round ((1/2 : ℚ) * 255) = (128 : ℤ) ∧ (127 : ℤ) ≠ 128 := by
  refine ⟨?_, by norm_num [round_eq], by decide⟩
  have hb : rgbAllLeOne [⟨0, 0, 0, 1/2, 0, 1⟩] = true := by
    simp only [rgbAllLeOne, List.all_cons, List.all_nil, Bool.and_true,
      Bool.and_eq_true, decide_eq_true_eq]
    norm_num
  simp only [pureNumpyVertices, hb, if_true, List.map]
  norm_num [astypeUint8, ratTrunc, PlyVertex.mk.injEq]

/-- On a channel value `c` with `0 ≤ c ≤ 1`, the generated program's
`(c * 255).astype(uint8)` equals `⌊c * 255⌋`: the value is nonnegative
(so truncation is the floor) and at most 255 (so the 8-bit wrap is the
identity). -/
theorem astypeUint8_eq_floor (c : ℚ) (h0 : 0 ≤ c) (h1 : c ≤ 1) :
    astypeUint8 (c * 255) = ⌊c * 255⌋ := by
  have hnn : (0 : ℚ) ≤ c * 255 := by positivity
  have hle : c * 255 ≤ 255 := by nlinarith
  have hfl0 : 0 ≤ ⌊c * 255⌋ := Int.floor_nonneg.mpr hnn
  have hfl : ⌊c * 255⌋ < 256 := by
    have h255 : ⌊c * 255⌋ ≤ ⌊(255 : ℚ)⌋ := Int.floor_le_floor hle
    have : (⌊(255 : ℚ)⌋ : ℤ) = 255 := by norm_num
    omega
  unfold astypeUint8 ratTrunc
  rw [if_neg (not_lt.mpr hnn)]
  exact Int.emod_eq_of_lt hfl0 hfl

/-- C7 (amended): for every nonempty `(n,6)` array the first three
columns are emitted unchanged as the x,y,z positions and the last
three as integer color channels; when every color value lies in the
0-1 range, each emitted channel equals `⌊c * 255⌋` - truncation of
`c * 255`, not `round(c * 255)` - and when the color maximum exceeds
1, each channel is the `astype(uint8)` truncation of the raw value. -/
theorem c7_color_normalization (rows : List NumpyRow6) (_hne : rows ≠ [])
    (hbound : ∀ w ∈ rows, 0 ≤ w.r ∧ w.r ≤ 1 ∧ 0 ≤ w.g ∧ w.g ≤ 1 ∧
      0 ≤ w.b ∧ w.b ≤ 1) :
    pureNumpyVertices rows = rows.map (fun w =>
      ⟨w.x, w.y, w.z, ⌊w.r * 255⌋, ⌊w.g * 255⌋, ⌊w.b * 255⌋⟩) ∧
    (∀ rows2 : List NumpyRow6, rgbAllLeOne rows2 = false →
      pureNumpyVertices rows2 = rows2.map (fun w =>
        ⟨w.x, w.y, w.z, astypeUint8 w.r, astypeUint8 w.g,
          astypeUint8 w.b⟩)) := by
  constructor
  · have hball : rgbAllLeOne rows = true := by
      simp only [rgbAllLeOne, List.all_eq_true, Bool.and_eq_true,
        decide_eq_true_eq]
      intro w hw
      rcases hbound w hw with ⟨_, hr, _, hg, _, hb⟩
      exact ⟨⟨hr, hg⟩, hb⟩
    simp only [pureNumpyVertices, hball, if_true]
    apply List.map_congr_left
    intro w hw
    rcases hbound w hw with ⟨hr0, hr1, hg0, hg1, hb0, hb1⟩
    rw [astypeUint8_eq_floor w.r hr0 hr1, astypeUint8_eq_floor w.g hg0 hg1,
      astypeUint8_eq_floor w.b hb0 hb1]
  · intro rows2 hfalse
    simp [pureNumpyVertices, hfalse]

/-- C7 witness: one row with positions `(1,2,3)` and colors
`(1/2, 0, 1)`, all in range, is emitted with positions unchanged and
channels `⌊c * 255⌋ = (127, 0, 255)`. -/
theorem c7_color_normalization_witness :
    pureNumpyVertices [⟨1, 2, 3, 1/2, 0, 1⟩] = [⟨1, 2, 3, 127, 0, 255⟩] := by
  have h := (c7_color_normalization [⟨1, 2, 3, 1/2, 0, 1⟩]
    (List.cons_ne_nil _ _)
    (by intro w hw; simp only [List.mem_singleton] at hw; subst hw
        norm_num)).1
  rw [h]
  simp only [List.map]
  norm_num [PlyVertex.mk.injEq]

end ViewPLY
